import Mathlib

/-!
# Verification of the Luxtronik heat-pump plugin core (plugin.py)

Shallow embedding of the protocol client (`send_message`,
`process_socket_message`), the write-parameter table (`available_writes`),
the value converters (`selector_switch_level_mapping`, `to_cop_calculator`)
and the update tracker (`DeviceUpdateTracker._normalize_value`,
`_check_device_type`, `needs_update`) from `plugin.py`, together with
theorems about the behaviour the design document ascribes to them.

Modelling conventions:
* 4-byte big-endian integers on the wire are modelled as `Int` values; one
  `recv(4)`+`unpack` is one element consumed from a `List Int` input stream,
  and a `send(pack(v))` is one element appended to a sent-word list.
* Python exceptions are modelled with `Except String`; an attribute access
  that raises is a `.error` field of the `Device` model.
* `time.time()` readings are modelled as whole seconds (`Int`).  The update
  logic only subtracts two readings, compares the difference with the 300
  constant and truncates it for display, so whole-second granularity is
  faithful for every statement made below.
* Python `float` values arising from `float(decimal-literal)` are modelled
  exactly as scaled integers `num / 10 ^ exp` (`Dec`); `round` and the
  `.1f` / `round(x, 2)` formatting use round-half-to-even on the exact
  value, which agrees with CPython on all values whose decimal expansion is
  not a representation-dependent tie (no such tie occurs in any statement
  below).
* Calls to the host logger `Domoticz.Error` are recorded as events; events
  are tagged with the reporting site (connection setup, message exchange,
  or the top-level `process_socket_message` handler).
-/

namespace Plugin

/-! ## Small dictionary helpers (Python dict on Nat keys) -/

def dictGet {α : Type} : List (Nat × α) → Nat → Option α
  | [], _ => none
  | (k, v) :: rest, key => if k = key then some v else dictGet rest key

def dictSet {α : Type} : List (Nat × α) → Nat → α → List (Nat × α)
  | [], key, v => [(key, v)]
  | (k, w) :: rest, key, v =>
      if k = key then (key, v) :: rest else (k, w) :: dictSet rest key v

theorem dictGet_dictSet_self {α : Type} (m : List (Nat × α)) (k : Nat) (v : α) :
    dictGet (dictSet m k v) k = some v := by
  induction m with
  | nil => simp [dictGet, dictSet]
  | cons hd tl ih =>
      obtain ⟨k0, v0⟩ := hd
      by_cases h : k0 = k
      · simp [dictGet, dictSet, h]
      · simp [dictGet, dictSet, h, ih]

/-- Python `range(start, stop, step)` for a positive step. -/
def pyRange (start stop step : Int) : List Int :=
  (List.range (((stop - start + step - 1) / step).toNat)).map
    (fun i => start + step * (i : Int))

/-- First index of a value in a list (Python `list.index`, as an `Option`
instead of `ValueError`). -/
def listIndex : List Int → Int → Option Nat
  | [], _ => none
  | x :: xs, v => if x = v then some 0 else (listIndex xs v).map (· + 1)

theorem listIndex_eq_none_iff (m : List Int) (v : Int) :
    listIndex m v = none ↔ v ∉ m := by
  induction m with
  | nil => simp [listIndex]
  | cons x xs ih =>
      by_cases h : x = v
      · simp [listIndex, h]
      · simp [listIndex, h, ih, Ne.symm h]

/-! ## Python float parsing and formatting on exact rationals -/

def digitsToNat (l : List Char) : Nat :=
  l.foldl (fun a c => a * 10 + (c.toNat - 48)) 0

/-- An exact decimal value `num / 10 ^ exp`, the result of parsing a
decimal literal. -/
structure Dec where
  num : Int
  exp : Nat
deriving DecidableEq, Repr

/-- Decimal literal parser: digits with an optional single decimal point,
at least one digit overall.  Together with `pyFloat?` this models Python
`float(s)` on the plain decimal literals this plugin compares; exponent
forms, `inf`/`nan` and underscore separators are outside the model (they do
not occur in the plugin data). -/
def parseDecimal (cs : List Char) : Option Dec :=
  let intPart := cs.takeWhile Char.isDigit
  let rest := cs.dropWhile Char.isDigit
  match rest with
  | [] => if intPart.isEmpty then none else some ⟨(digitsToNat intPart : Int), 0⟩
  | '.' :: frac =>
      if frac.all Char.isDigit && !(intPart.isEmpty && frac.isEmpty) then
        some ⟨((digitsToNat intPart * 10 ^ frac.length + digitsToNat frac : Nat) : Int),
              frac.length⟩
      else none
  | _ => none

def pyFloat? (s : String) : Option Dec :=
  match s.toList with
  | '+' :: cs => parseDecimal cs
  | '-' :: cs => (parseDecimal cs).map (fun d => ⟨-d.num, d.exp⟩)
  | cs => parseDecimal cs

/-- Round half to even of the fraction `a / b` for `b > 0`, the rounding
CPython applies in `round` and in fixed-point formatting, computed with
exact integer arithmetic (`Int.ediv`/`Int.emod` give floor and a
non-negative remainder for a positive divisor). -/
def roundHalfEvenDiv (a b : Int) : Int :=
  let f := a.ediv b
  let r := a.emod b
  if 2 * r < b then f
  else if 2 * r > b then f + 1
  else if f.emod 2 = 0 then f else f + 1

/-- Python fixed format with one decimal digit applied to a parsed decimal
value. -/
def fmt1 (d : Dec) : String :=
  let n := roundHalfEvenDiv (d.num * 10) ((10 : Int) ^ d.exp)
  let sign := if n < 0 then "-" else ""
  let m := n.natAbs
  sign ++ toString (m / 10) ++ "." ++ toString (m % 10)

/-- Python `str(round(a / b, 2))` for integers `a`, `b` with `b > 0`:
round the exact quotient to two decimals, print with the shortest decimal
tail (at least one digit). -/
def fmt2Div (a b : Int) : String :=
  let n := roundHalfEvenDiv (a * 100) b
  let sign := if n < 0 then "-" else ""
  let m := n.natAbs
  let whole := toString (m / 100)
  let centi := m % 100
  if centi = 0 then sign ++ whole ++ ".0"
  else if centi % 10 = 0 then sign ++ whole ++ "." ++ toString (centi / 10)
  else sign ++ whole ++ "." ++ (if centi < 10 then "0" else "") ++ toString centi

/-! ## Value normalization (DeviceUpdateTracker._normalize_value) -/

/-- Python `str.strip()` on the character list (leading and trailing
whitespace removed). -/
def stripChars (cs : List Char) : List Char :=
  ((cs.dropWhile Char.isWhitespace).reverse.dropWhile Char.isWhitespace).reverse

/-- The comparison segment of a value string: strip, then, if a `;` is
present, keep only the part before the first `;` (`split(';')[0]`) and
strip again (`_normalize_value` lines 197-199). -/
def normalized_segment_chars (cs : List Char) : List Char :=
  let t := stripChars cs
  if t.contains ';' then stripChars (t.takeWhile (fun c => c ≠ ';')) else t

def normalized_segment (s : String) : String :=
  ⟨normalized_segment_chars s.toList⟩

/-- `DeviceUpdateTracker._normalize_value`: empty values stay empty; the
comparison segment is formatted to one decimal when it parses as a float,
and lowercased otherwise. -/
def normalize_value (s : String) : String :=
  if s = "" then ""
  else
    let seg := normalized_segment s
    match pyFloat? seg with
    | some d => fmt1 d
    | none => ⟨seg.toList.map Char.toLower⟩

/-! ## Value converters (plugin.py lines 265-401) -/

/-- `selector_switch_level_mapping(data_list, data_idx, mapping)`:
`level = mapping.index(data_list[data_idx]) * 10`, returned as
`{nValue: int(level), sValue: str(level)}`.  `none` models the
`IndexError`/`ValueError` raised on a missing index or unmapped value. -/
def selector_switch_level_mapping (data_list : List Int) (data_idx : Nat)
    (mapping : List Int) : Option (Int × String) :=
  match data_list[data_idx]? with
  | none => none
  | some v =>
      match listIndex mapping v with
      | none => none
      | some i => some (((i : Int) * 10), toString ((i : Int) * 10))

/-- `to_cop_calculator(data_list, _, [heat_output_idx, power_input_idx])`:
`cop = heat/power` when `power > 0` else the int `0`;
returns `{sValue: str(round(cop, 2))}` (`str(round(0, 2)) = "0"`). -/
def to_cop_calculator (data_list : List Int) (indices : Nat × Nat) :
    Option String :=
  match data_list[indices.1]?, data_list[indices.2]? with
  | some heat_output, some power_input =>
      if power_input > 0 then some (fmt2Div heat_output power_input)
      else some "0"
  | _, _ => none

/-! ## DeviceUpdateTracker (plugin.py lines 141-262)

Python exceptions are modelled with `Except String`: a `Device` attribute
whose access raises holds `.error msg`, and `str(e)` of the propagating
exception is that message. -/

abbrev PyExc := Except String

deriving instance DecidableEq for Except

/-- A Domoticz device as seen by the tracker: exactly the attributes the
tracker reads.  `hasSubType` models `hasattr(device, 'SubType')`;
`TypeAttr` is the `Type` attribute (`Type` is a Lean keyword). -/
structure Device where
  ID : PyExc Nat
  Name : PyExc String
  TypeAttr : PyExc Int
  hasSubType : Bool
  SubType : PyExc Int
  nValue : PyExc Int
  sValue : PyExc String
deriving DecidableEq, Repr

/-- `DeviceUpdateTracker.type_mapping` with the `('Unknown', False)`
default of `dict.get`. -/
def type_mapping (t : Int) : String × Bool :=
  if t = 80 then ("Temperature", true)
  else if t = 243 then ("Custom", true)
  else if t = 242 then ("Custom", true)
  else if t = 244 then ("Switch", false)
  else ("Unknown", false)

/-- Mutable tracker state: `self.last_update_times` (device id to last
publish time, whole seconds) and `self.device_types` (device id to the
cached graphing flag). -/
structure TrackerState where
  last_update_times : List (Nat × Int)
  device_types : List (Nat × Bool)
deriving DecidableEq, Repr

/-- `self.graph_update_interval = 300`. -/
def graph_update_interval : Int := 300

def DEBUG_DEVICE : Int := 2

/-- Python truthiness of `_plugin.debug_level & DEBUG_DEVICE`. -/
def debugDeviceEnabled (debug_level : Int) : Bool :=
  Int.land debug_level DEBUG_DEVICE ≠ 0

/-- `DeviceUpdateTracker._check_device_type`.  Returns the graphing flag
and the updated `device_types` cache; `.error` is an exception propagating
out (only possible when the `except` handler itself raises while reading
`device.Name` for its log line). -/
def check_device_type (debug_level : Int) (dt : List (Nat × Bool)) (d : Device) :
    PyExc Bool × List (Nat × Bool) :=
  let body : PyExc Bool × List (Nat × Bool) :=
    match d.ID with
    | .error e => (.error e, dt)
    | .ok device_id =>
      -- hasattr(device, 'SubType') and device.Type == 243 and device.SubType == 19
      let textCheck : PyExc Bool :=
        if d.hasSubType then
          match d.TypeAttr with
          | .error e => .error e
          | .ok t =>
              if t = 243 then
                match d.SubType with
                | .error e => .error e
                | .ok st => .ok (st = 19)
              else .ok false
        else .ok false
      match textCheck with
      | .error e => (.error e, dt)
      | .ok true => (.ok false, dictSet dt device_id false)
      | .ok false =>
          match dictGet dt device_id with
          | some cached => (.ok cached, dt)
          | none =>
              match d.TypeAttr with
              | .error e => (.error e, dt)
              | .ok t =>
                  let is_graphing := (type_mapping t).2
                  -- the debug log line reads device.Name before caching
                  if debugDeviceEnabled debug_level then
                    match d.Name with
                    | .error e => (.error e, dt)
                    | .ok _ => (.ok is_graphing, dictSet dt device_id is_graphing)
                  else (.ok is_graphing, dictSet dt device_id is_graphing)
  match body with
  | (.ok b, dt1) => (.ok b, dt1)
  | (.error _e, dt1) =>
      -- except handler: log_debug(f"Error checking device type {device.Name}: ...")
      match d.Name with
      | .error e2 => (.error e2, dt1)
      | .ok _ => (.ok false, dt1)

/-- The `new_values` dict passed to `needs_update`: both keys optional. -/
structure NewValues where
  nValue : Option Int
  sValue : Option String
deriving DecidableEq, Repr

/-- The `try` block of `DeviceUpdateTracker.needs_update` (lines 213-258):
returns `(needs_update, update_reason, diff_message)` or a propagating
exception, along with the tracker state as left by the block. -/
def needs_update_try (debug_level : Int) (st : TrackerState) (d : Device)
    (new_values : NewValues) (current_time : Int) :
    PyExc (Bool × String × String) × TrackerState :=
  match d.ID with
  | .error e => (.error e, st)
  | .ok device_id =>
    match check_device_type debug_level st.device_types d with
    | (.error e, dt1) => (.error e, { st with device_types := dt1 })
    | (.ok is_graphing, dt1) =>
      let st := { st with device_types := dt1 }
      match d.nValue with
      | .error e => (.error e, st)
      | .ok curN =>
        match d.sValue with
        | .error e => (.error e, st)
        | .ok curS =>
          let nPart : Bool × String :=
            match new_values.nValue with
            | some n =>
                if n ≠ curN then
                  (true, "nValue: " ++ toString curN ++ " -> " ++ toString n ++ "; ")
                else (false, "")
            | none => (false, "")
          let sPart : Bool × String :=
            match new_values.sValue with
            | some sNew =>
                let normCurrent := normalize_value curS
                let normNew := normalize_value sNew
                if normCurrent ≠ normNew then
                  (true, "sValue: " ++ curS ++ " (normalized: " ++ normCurrent ++
                    ") -> " ++ sNew ++ " (normalized: " ++ normNew ++ ")")
                else (false, "")
            | none => (false, "")
          let values_changed := nPart.1 || sPart.1
          let diff_message := nPart.2 ++ sPart.2
          if values_changed then
            if is_graphing then
              (.ok (true, "Values changed", diff_message),
               { st with last_update_times :=
                   dictSet st.last_update_times device_id current_time })
            else (.ok (true, "Values changed", diff_message), st)
          else if is_graphing then
            let last_update := (dictGet st.last_update_times device_id).getD 0
            let time_since_update := current_time - last_update
            if time_since_update ≥ graph_update_interval then
              (.ok (true, "Interval update", ""),
               { st with last_update_times :=
                   dictSet st.last_update_times device_id current_time })
            else
              let time_until_update := graph_update_interval - time_since_update
              (.ok (false, "No changes, next update in " ++
                    toString time_until_update ++ "s", ""), st)
          else (.ok (false, "Non-graphing device, no changes", ""), st)

/-- `DeviceUpdateTracker.needs_update`: the `try` block wrapped by the
`except` handler, which logs (reading `device.Name`) and then returns
`(False, f"Error: {str(e)}", "")`. -/
def needs_update (debug_level : Int) (st : TrackerState) (d : Device)
    (new_values : NewValues) (current_time : Int) :
    PyExc (Bool × String × String) × TrackerState :=
  match needs_update_try debug_level st d new_values current_time with
  | (.ok r, st1) => (.ok r, st1)
  | (.error e, st1) =>
      match d.Name with
      | .error e2 => (.error e2, st1)
      | .ok _ => (.ok (false, "Error: " ++ e, ""), st1)

/-! ## Protocol client (plugin.py lines 858-957)

One `recv(4)`+`unpack('!i')` is one element consumed from the input
stream; one `send(pack('!i', v))` appends `v` to the sent-word list.  A
`recv` on an exhausted stream models a transport failure (short read /
socket error) and raises inside `send_message`. -/

/-- `SOCKET_COMMANDS` (plugin.py line 92). -/
def SOCKET_COMMANDS : List (String × Int) :=
  [("WRIT_PARAMS", 3002), ("READ_PARAMS", 3003),
   ("READ_CALCUL", 3004), ("READ_VISIBI", 3005)]

/-- Dictionary lookup in `SOCKET_COMMANDS`. -/
def socketCommand (s : String) : Option Int :=
  if s = "WRIT_PARAMS" then some 3002
  else if s = "READ_PARAMS" then some 3003
  else if s = "READ_CALCUL" then some 3004
  else if s = "READ_VISIBI" then some 3005
  else none

/-- The `Field` record of writable-parameter metadata (plugin.py line 421):
a display name and the allowed raw values (`self.vales`).  Names are the
English translation keys, as produced by `translate` under the default
language. -/
structure Field where
  name : String
  vales : List Int
deriving DecidableEq, Repr

/-- `self.available_writes` as built in `prepare_devices_list`
(plugin.py lines 574-581); `none` models a `KeyError` on any other
address.  Note the default `Field()` at key `-1` has an empty value set. -/
def available_writes (address : Int) : Option Field :=
  if address = -1 then some ⟨"Unknown", []⟩
  else if address = 1 then some ⟨"Temp +-", pyRange (-50) 51 5⟩
  else if address = 3 then some ⟨"Heating mode", [0, 1, 2, 3, 4]⟩
  else if address = 4 then some ⟨"Hot water mode", [0, 1, 2, 3, 4]⟩
  else if address = 105 then some ⟨"DHW temp target", pyRange 300 651 5⟩
  else if address = 108 then some ⟨"Cooling", [0, 1]⟩
  else none

/-- Outcome of one `send_message` call: the returned
`(command, stat, length, data_list)` tuple (`none` models the `return
None` after the internal `except` logged `Domoticz.Error`), the int32
words sent, and the number of int32 words consumed from the stream. -/
structure SendOutcome where
  result : Option (Int × Int × Int × List Int)
  sent : List Int
  consumed : Nat
deriving DecidableEq, Repr

/-- The data phase of `send_message` (plugin.py lines 909-913): after
`already` header words were consumed, read `length` int32 values if
`length > 0`.  A stream too short to supply them is a transport error. -/
def send_read_data (command stat length : Int) (s : List Int)
    (sent : List Int) (already : Nat) : SendOutcome :=
  if length > 0 then
    if length.toNat ≤ s.length then
      ⟨some (command, stat, length, s.take length.toNat), sent, already + length.toNat⟩
    else ⟨none, sent, already + s.length⟩
  else ⟨some (command, stat, length, []), sent, already⟩

/-- `BasePlugin.send_message` (plugin.py lines 879-919): send the command
code and address (plus the value for `WRIT_PARAMS`), verify the echoed
command code, read zero (write / visibility), one (`READ_PARAMS` count) or
two (`READ_CALCUL` status then count) header words, then `count` data
words.  Every exception is caught internally: the call reports the error
and returns `None`. -/
def send_message (command address value : Int) (stream : List Int) :
    SendOutcome :=
  let sentWords :=
    if command = 3002 then [command, address, value] else [command, address]
  match stream with
  | [] => ⟨none, sentWords, 0⟩
  | echo :: s1 =>
    if echo ≠ command then ⟨none, sentWords, 1⟩
    else if command = 3003 then
      match s1 with
      | [] => ⟨none, sentWords, 1⟩
      | length :: s2 => send_read_data command 0 length s2 sentWords 2
    else if command = 3004 then
      match s1 with
      | [] => ⟨none, sentWords, 1⟩
      | stat :: s2 =>
        match s2 with
        | [] => ⟨none, sentWords, 2⟩
        | length :: s3 => send_read_data command stat length s3 sentWords 3
    else ⟨some (command, 0, 0, []), sentWords, 1⟩

/-- Which site called `Domoticz.Error`: `initialize_connection` (line 872),
`send_message` (line 918), or the top-level handler of
`process_socket_message` (line 956). -/
inductive ErrSrc
  | conn
  | sendErr
  | psm
deriving DecidableEq, Repr

/-- Transport behaviour offered to one attempt of the retry loop: whether
`initialize_connection` succeeds, and the int32 words the peer will supply
to successive `recv` calls on that fresh connection. -/
structure Attempt where
  connectOk : Bool
  stream : List Int
deriving DecidableEq, Repr

/-- Events of one iteration of the retry loop. -/
structure AttemptOut where
  result : Option (Int × Int × Int × List Int)
  sent : List Int
  errors : List ErrSrc
deriving DecidableEq, Repr

/-- One iteration of the retry loop of `process_socket_message` (lines
936-949): `initialize_connection` (which reports its own failure), then
`send_message` (which reports its own failure and returns `None`); the
connection is closed in the `finally`, so each attempt uses a fresh
connection. -/
def runAttempt (code address value : Int) (a : Attempt) : AttemptOut :=
  if a.connectOk then
    let s := send_message code address value a.stream
    ⟨s.result, s.sent, if s.result.isNone then [ErrSrc.sendErr] else []⟩
  else ⟨none, [], [ErrSrc.conn]⟩

/-- Validation phase of `process_socket_message` (lines 925-932): unknown
commands raise `ValueError`; a write looks up `available_writes[address]`
(`KeyError` possible) and raises `ValueError` when the value is not an
allowed one; read commands force `address = value = 0`.  `none` models a
raised exception, handled by the top-level handler. -/
def psm_params (command : String) (address value : Int) : Option (Int × Int) :=
  if command = "WRIT_PARAMS" then
    match available_writes address with
    | none => none
    | some f => if value ∈ f.vales then some (address, value) else none
  else some (0, 0)

/-- Observable outcome of `process_socket_message`: the returned 4-tuple
(the failure path returns the command *name* where the success path
returns the echoed command *code*, hence the sum), the number of sockets
opened by `initialize_connection`, all int32 words sent on the wire, and
the `Domoticz.Error` reports in order. -/
structure PsmOut where
  ret : (String ⊕ Int) × Int × Int × List Int
  socketOpens : Nat
  sentWords : List Int
  errors : List ErrSrc
deriving DecidableEq, Repr

/-- `BasePlugin.process_socket_message` (plugin.py lines 921-957):
validate, then up to 2 attempts; a `None` from `send_message` or a failed
connect falls through to the next attempt; exhausting both attempts raises
`Failed after 2 attempts`, which the top-level handler converts into one
`Domoticz.Error` report and the empty result `(command, 0, 0, [])`.  The
function is total: no exception reaches the caller. -/
def process_socket_message (command : String) (address value : Int)
    (a0 a1 : Attempt) : PsmOut :=
  match socketCommand command with
  | none => ⟨(Sum.inl command, 0, 0, []), 0, [], [ErrSrc.psm]⟩
  | some code =>
    match psm_params command address value with
    | none => ⟨(Sum.inl command, 0, 0, []), 0, [], [ErrSrc.psm]⟩
    | some (addr, val) =>
      let r0 := runAttempt code addr val a0
      match r0.result with
      | some r => ⟨(Sum.inr r.1, r.2.1, r.2.2.1, r.2.2.2), 1, r0.sent, r0.errors⟩
      | none =>
        let r1 := runAttempt code addr val a1
        match r1.result with
        | some r =>
            ⟨(Sum.inr r.1, r.2.1, r.2.2.1, r.2.2.2), 2,
             r0.sent ++ r1.sent, r0.errors ++ r1.errors⟩
        | none =>
            ⟨(Sum.inl command, 0, 0, []), 2, r0.sent ++ r1.sent,
             r0.errors ++ r1.errors ++ [ErrSrc.psm]⟩

/-! ## Claim theorems -/

/-- A failed retry-loop iteration reports only connection or exchange
errors, never the top-level `process_socket_message` report. -/
theorem runAttempt_fail_no_psm (code address value : Int) (a : Attempt)
    (h : (runAttempt code address value a).result = none) :
    (runAttempt code address value a).errors.count ErrSrc.psm = 0 := by
  unfold runAttempt at *
  by_cases hc : a.connectOk
  · simp only [hc, if_true] at *
    simp [h]
  · simp [hc]

/-- C1 counterexample: after 2 consecutive connection failures the call
does return the empty result, but the host error logger receives three
reports — one per failed `initialize_connection` plus the top-level
`process_socket_message` report — not exactly one. -/
theorem C1_counterexample :
    process_socket_message "READ_CALCUL" 0 0 ⟨false, []⟩ ⟨false, []⟩
      = ⟨(Sum.inl "READ_CALCUL", 0, 0, []), 2, [],
         [ErrSrc.conn, ErrSrc.conn, ErrSrc.psm]⟩
    ∧ (process_socket_message "READ_CALCUL" 0 0 ⟨false, []⟩
         ⟨false, []⟩).errors.length ≠ 1 := by
  decide

/-- C1 as amended: when both attempts of a validated request fail, the
call returns the explicit empty result `(command, 0, 0, [])` without
raising, and reports the overall failure exactly once at the
`process_socket_message` level — but each failed attempt additionally
reports its own connection or exchange error, so 2 consecutive connection
timeouts produce three host error reports in total. -/
theorem C1_amended :
    (∀ (command : String) (code address value addr val : Int) (a0 a1 : Attempt),
        socketCommand command = some code →
        psm_params command address value = some (addr, val) →
        (runAttempt code addr val a0).result = none →
        (runAttempt code addr val a1).result = none →
        (process_socket_message command address value a0 a1).ret
            = (Sum.inl command, 0, 0, [])
        ∧ (process_socket_message command address value a0 a1).errors
            = (runAttempt code addr val a0).errors
              ++ (runAttempt code addr val a1).errors ++ [ErrSrc.psm]
        ∧ (process_socket_message command address value a0 a1).errors.count
            ErrSrc.psm = 1)
    ∧ process_socket_message "READ_CALCUL" 0 0 ⟨false, []⟩ ⟨false, []⟩
        = ⟨(Sum.inl "READ_CALCUL", 0, 0, []), 2, [],
           [ErrSrc.conn, ErrSrc.conn, ErrSrc.psm]⟩ := by
  refine ⟨?_, by decide⟩
  intro command code address value addr val a0 a1 hcmd hparams h0 h1
  have hcnt0 := runAttempt_fail_no_psm code addr val a0 h0
  have hcnt1 := runAttempt_fail_no_psm code addr val a1 h1
  refine ⟨?_, ?_, ?_⟩
  · simp [process_socket_message, hcmd, hparams, h0, h1]
  · simp [process_socket_message, hcmd, hparams, h0, h1]
  · simp [process_socket_message, hcmd, hparams, h0, h1, List.count_append,
      hcnt0, hcnt1, List.count_cons]

/-- Witness for C1 as amended: a connect failure followed by an exchange
failure on an empty stream. -/
theorem C1_amended_witness :
    socketCommand "READ_PARAMS" = some 3003
    ∧ psm_params "READ_PARAMS" 0 0 = some (0, 0)
    ∧ (runAttempt 3003 0 0 ⟨false, []⟩).result = none
    ∧ (runAttempt 3003 0 0 ⟨true, []⟩).result = none
    ∧ (process_socket_message "READ_PARAMS" 0 0 ⟨false, []⟩ ⟨true, []⟩).ret
        = (Sum.inl "READ_PARAMS", 0, 0, []) :=
  ⟨by decide, by decide, by decide, by decide,
   (C1_amended.1 "READ_PARAMS" 3003 0 0 0 0 ⟨false, []⟩ ⟨true, []⟩
     (by decide) (by decide) (by decide) (by decide)).1⟩

/-- C2 counterexample: with the peer echoing the wrong command code on
both attempts, the exchange fails with a reported error each time, yet a
second socket is opened and the command words are sent again — the echo
mismatch IS retried, contradicting the claimed abort-without-retry. -/
theorem C2_counterexample :
    process_socket_message "READ_PARAMS" 0 0 ⟨true, [9999]⟩ ⟨true, [9999]⟩
      = ⟨(Sum.inl "READ_PARAMS", 0, 0, []), 2, [3003, 0, 3003, 0],
         [ErrSrc.sendErr, ErrSrc.sendErr, ErrSrc.psm]⟩
    ∧ (process_socket_message "READ_PARAMS" 0 0 ⟨true, [9999]⟩
         ⟨true, [9999]⟩).socketOpens ≠ 1 := by
  decide

/-- C2 as amended: an echo mismatch makes the exchange fail after the
mismatched word with an error report, and the connection is closed (each
iteration runs on a fresh connection) — but `send_message` swallows the
exception and returns `None`, so the loop retries an echo mismatch exactly
like a connect or transport failure; the total number of attempts is
capped at 2 in every case. -/
theorem C2_amended :
    (∀ (code address value echo : Int) (rest : List Int), echo ≠ code →
        (send_message code address value (echo :: rest)).result = none
        ∧ (send_message code address value (echo :: rest)).consumed = 1)
    ∧ (∀ a1 : Attempt,
        (process_socket_message "READ_PARAMS" 0 0 ⟨true, [9999]⟩ a1).socketOpens
          = 2)
    ∧ (∀ (command : String) (address value : Int) (a0 a1 : Attempt),
        (process_socket_message command address value a0 a1).socketOpens ≤ 2) := by
  refine ⟨?_, ?_, ?_⟩
  · intro code address value echo rest he
    constructor <;> simp [send_message, he]
  · intro a1
    have h0 : (runAttempt 3003 0 0 ⟨true, [9999]⟩).result = none := by decide
    have hcmd : socketCommand "READ_PARAMS" = some 3003 := rfl
    have hparams : psm_params "READ_PARAMS" 0 0 = some (0, 0) := rfl
    cases h1 : (runAttempt 3003 0 0 a1).result <;>
      simp [process_socket_message, hcmd, hparams, h0, h1]
  · intro command address value a0 a1
    cases hsc : socketCommand command with
    | none => simp [process_socket_message, hsc]
    | some code =>
      cases hp : psm_params command address value with
      | none => simp [process_socket_message, hsc, hp]
      | some p =>
        obtain ⟨addr, val⟩ := p
        cases hr0 : (runAttempt code addr val a0).result with
        | some r => simp [process_socket_message, hsc, hp, hr0]
        | none =>
          cases hr1 : (runAttempt code addr val a1).result with
          | some r => simp [process_socket_message, hsc, hp, hr0, hr1]
          | none => simp [process_socket_message, hsc, hp, hr0, hr1]

/-- Witness for C2 as amended: a mismatched echo `9999` against command
code 3003. -/
theorem C2_amended_witness :
    (9999 : Int) ≠ 3003
    ∧ (send_message 3003 0 0 [9999]).result = none :=
  ⟨by decide, (C2_amended.1 3003 0 0 9999 [] (by decide)).1⟩

/-- C3: a `WRIT_PARAMS` request whose value is not in the target
parameter's allowed-value set is rejected locally before any network I/O:
no socket is opened, nothing is sent on the wire, and the call returns the
empty result `(command, 0, 0, [])` after reporting the validation failure
once through the top-level handler. -/
theorem C3_invalid_write_rejected_locally :
    ∀ (address value : Int) (f : Field) (a0 a1 : Attempt),
      available_writes address = some f → value ∉ f.vales →
      process_socket_message "WRIT_PARAMS" address value a0 a1
        = ⟨(Sum.inl "WRIT_PARAMS", 0, 0, []), 0, [], [ErrSrc.psm]⟩ := by
  intro address value f a0 a1 hf hv
  have hcmd : socketCommand "WRIT_PARAMS" = some 3002 := rfl
  have hparams : psm_params "WRIT_PARAMS" address value = none := by
    simp [psm_params, hf, hv]
  simp [process_socket_message, hcmd, hparams]

/-- Witness for C3 at address 3 (`Heating mode`, allowed `[0,1,2,3,4]`)
and the invalid value 7. -/
theorem C3_invalid_write_rejected_locally_witness :
    available_writes 3 = some ⟨"Heating mode", [0, 1, 2, 3, 4]⟩
    ∧ (7 : Int) ∉ [(0 : Int), 1, 2, 3, 4]
    ∧ process_socket_message "WRIT_PARAMS" 3 7 ⟨true, [3002]⟩ ⟨true, [3002]⟩
        = ⟨(Sum.inl "WRIT_PARAMS", 0, 0, []), 0, [], [ErrSrc.psm]⟩ :=
  ⟨by decide, by decide,
   C3_invalid_write_rejected_locally 3 7 ⟨"Heating mode", [0, 1, 2, 3, 4]⟩
     ⟨true, [3002]⟩ ⟨true, [3002]⟩ (by decide) (by decide)⟩

/-- C4: for a `READ_PARAMS` exchange (echo then one count header) and a
`READ_CALCUL` exchange (echo, status, then count header) with a positive
count, exactly `count` int32 values are consumed after the headers — the
total words consumed are header words plus `count`, the frame is the next
`count` stream values in order, and a stream holding fewer than `count`
values never yields a partial frame (the exchange fails instead). -/
theorem C4_read_exact_count :
    (∀ (n : Int) (rest : List Int), 0 < n → n.toNat ≤ rest.length →
        send_message 3003 0 0 (3003 :: n :: rest)
          = ⟨some (3003, 0, n, rest.take n.toNat), [3003, 0], 2 + n.toNat⟩)
    ∧ (∀ (n : Int) (rest : List Int), 0 < n → rest.length < n.toNat →
        (send_message 3003 0 0 (3003 :: n :: rest)).result = none)
    ∧ (∀ (stat n : Int) (rest : List Int), 0 < n → n.toNat ≤ rest.length →
        send_message 3004 0 0 (3004 :: stat :: n :: rest)
          = ⟨some (3004, stat, n, rest.take n.toNat), [3004, 0], 3 + n.toNat⟩) := by
  refine ⟨?_, ?_, ?_⟩
  · intro n rest hn hlen
    simp [send_message, send_read_data, hn, hlen]
  · intro n rest hn hlen
    simp [send_message, send_read_data, hn, Nat.not_le.mpr hlen]
  · intro stat n rest hn hlen
    simp [send_message, send_read_data, hn, hlen]

/-- Witness for C4: count 2 with stream `[7, 8, 9]` on both read
commands, and a short stream `[7]` for count 2. -/
theorem C4_read_exact_count_witness :
    ((0 : Int) < 2 ∧ (2 : Int).toNat ≤ [7, 8, 9].length)
    ∧ send_message 3003 0 0 [3003, 2, 7, 8, 9]
        = ⟨some (3003, 0, 2, [7, 8]), [3003, 0], 4⟩
    ∧ send_message 3004 0 0 [3004, 5, 2, 7, 8, 9]
        = ⟨some (3004, 5, 2, [7, 8]), [3004, 0], 5⟩
    ∧ (send_message 3003 0 0 [3003, 2, 7]).result = none :=
  ⟨⟨by decide, by decide⟩,
   C4_read_exact_count.1 2 [7, 8, 9] (by decide) (by decide),
   C4_read_exact_count.2.2 5 2 [7, 8, 9] (by decide) (by decide),
   C4_read_exact_count.2.1 2 [7] (by decide) (by decide)⟩

/-- C5 counterexample: in a write exchange the code reads the echoed
command word and nothing else — with `42` waiting on the stream after the
echo, only 1 word is consumed, the returned count is `0` (not `42`) and
the frame is empty, contradicting the claimed `count` read after the
echo. -/
theorem C5_counterexample :
    send_message 3002 3 1 [3002, 42]
      = ⟨some (3002, 0, 0, []), [3002, 3, 1], 1⟩
    ∧ (send_message 3002 3 1 [3002, 42]).consumed ≠ 2
    ∧ (send_message 3002 3 1 [3002, 42]).result ≠ some (3002, 0, 42, []) := by
  decide

/-- C5 as amended: a write exchange sends `cmd`, `address`, `value`, then
reads back only the echoed `cmd` — zero additional header words — and
returns status 0, count 0 and an empty frame. -/
theorem C5_amended (address value : Int) (rest : List Int) :
    send_message 3002 address value (3002 :: rest)
      = ⟨some (3002, 0, 0, []), [3002, address, value], 1⟩ := by
  simp [send_message]

/-- C8: the selector-mapping converter emits `index_of(raw) * 10` as both
the numeric and the string value; a raw value not present in the allowed
list is an error (no value is returned); concretely, allowed values
`[0,1,2,3,4]` with raw value `2` give `(20, "20")`. -/
theorem C8_selector_mapping :
    (∀ (data_list mapping : List Int) (i : Nat) (v : Int),
        data_list[i]? = some v →
        (v ∉ mapping → selector_switch_level_mapping data_list i mapping = none)
        ∧ (∀ k, listIndex mapping v = some k →
            selector_switch_level_mapping data_list i mapping
              = some ((k : Int) * 10, toString ((k : Int) * 10))))
    ∧ selector_switch_level_mapping [2] 0 [0, 1, 2, 3, 4] = some (20, "20") := by
  constructor
  · intro dl m i v hv
    constructor
    · intro hnm
      have hnone : listIndex m v = none := (listIndex_eq_none_iff m v).mpr hnm
      simp [selector_switch_level_mapping, hv, hnone]
    · intro k hk
      simp [selector_switch_level_mapping, hv, hk]
  · decide

/-- Witness for C8: raw value 7 is not in `[0,1,2,3,4]`, so conversion of
the frame `[7]` errors out. -/
theorem C8_selector_mapping_witness :
    ([7] : List Int)[0]? = some 7
    ∧ (7 : Int) ∉ [(0 : Int), 1, 2, 3, 4]
    ∧ selector_switch_level_mapping [7] 0 [0, 1, 2, 3, 4] = none :=
  ⟨by decide, by decide,
   (C8_selector_mapping.1 [7] [0, 1, 2, 3, 4] 0 7 (by decide)).1 (by decide)⟩

/-- C9: the COP converter returns `heat_output / power_input` rounded to
two decimals as the string value when `power_input > 0` and the string
`"0"` when `power_input` is not positive; concretely 3000/1000 gives
`"3.0"` and power 0 gives `"0"`. -/
theorem C9_cop_calculator :
    (∀ (data_list : List Int) (i j : Nat) (heat power : Int),
        data_list[i]? = some heat → data_list[j]? = some power →
        (power > 0 →
          to_cop_calculator data_list (i, j) = some (fmt2Div heat power))
        ∧ (¬ power > 0 → to_cop_calculator data_list (i, j) = some "0"))
    ∧ to_cop_calculator [3000, 1000] (0, 1) = some "3.0"
    ∧ to_cop_calculator [3000, 0] (0, 1) = some "0" := by
  refine ⟨?_, by decide, by decide⟩
  intro dl i j heat power hh hp
  constructor
  · intro hpos
    simp [to_cop_calculator, hh, hp, hpos]
  · intro hneg
    simp [to_cop_calculator, hh, hp, hneg]

/-- Witness for C9 at heat 3000, power 1000. -/
theorem C9_cop_calculator_witness :
    ([3000, 1000] : List Int)[0]? = some 3000
    ∧ ([3000, 1000] : List Int)[1]? = some 1000
    ∧ (1000 : Int) > 0
    ∧ to_cop_calculator [3000, 1000] (0, 1) = some (fmt2Div 3000 1000) :=
  ⟨by decide, by decide, by decide,
   (C9_cop_calculator.1 [3000, 1000] 0 1 3000 1000 (by decide) (by decide)).1
     (by decide)⟩

/-! ### Update tracker claims -/

/-- A concrete graphing device (`Type` 80, Temperature, plugin table line
594) with stored values `nValue = 0`, `sValue = "21.04"`. -/
def tempDevice : Device :=
  ⟨.ok 1, .ok "Heat supply temp", .ok 80, true, .ok 0, .ok 0, .ok "21.04"⟩

/-- Candidate values with the same numeric flag and the numerically equal
string `"21.0"`. -/
def candidateVals : NewValues := ⟨some 0, some "21.0"⟩

/-- The interval-branch refusal message can never collide with the
`Values changed` reason. -/
theorem no_changes_message_ne (k : Int) :
    "No changes, next update in " ++ toString k ++ "s" ≠ "Values changed" := by
  intro h
  have hlen := congrArg String.length h
  rw [String.length_append, String.length_append] at hlen
  have h1 : ("No changes, next update in " : String).length = 27 := rfl
  have h2 : ("s" : String).length = 1 := rfl
  have h3 : ("Values changed" : String).length = 14 := rfl
  rw [h1, h2, h3] at hlen
  omega

/-- C6: normalization keeps the stripped segment before the first `;`;
a segment that parses as a float is formatted (hence compared) at
one-decimal precision, any other segment is compared lowercased; two
numeric values equal at one decimal normalize equal — concretely
`"21.04"` and `"21.0"` — and, with an unchanged numeric flag, a stored
`"21.04"` against a candidate `"21.0"` never yields a `Values changed`
update. -/
theorem C6_normalize_compare :
    (∀ (s : String) (d : Dec), s ≠ "" →
        pyFloat? (normalized_segment s) = some d → normalize_value s = fmt1 d)
    ∧ (∀ (s1 s2 : String) (d1 d2 : Dec), s1 ≠ "" → s2 ≠ "" →
        pyFloat? (normalized_segment s1) = some d1 →
        pyFloat? (normalized_segment s2) = some d2 →
        roundHalfEvenDiv (d1.num * 10) ((10 : Int) ^ d1.exp)
          = roundHalfEvenDiv (d2.num * 10) ((10 : Int) ^ d2.exp) →
        normalize_value s1 = normalize_value s2)
    ∧ (∀ s : String, s ≠ "" → pyFloat? (normalized_segment s) = none →
        normalize_value s = ⟨(normalized_segment s).toList.map Char.toLower⟩)
    ∧ normalize_value "21.04" = normalize_value "21.0"
    ∧ (∀ (lt : List (Nat × Int)) (dt : List (Nat × Bool)) (t : Int)
          (r : Bool × String × String) (st1 : TrackerState),
        needs_update 0 ⟨lt, dt⟩ tempDevice candidateVals t = (.ok r, st1) →
        r.2.1 ≠ "Values changed") := by
  have hfloat : ∀ (s : String) (d : Dec), s ≠ "" →
      pyFloat? (normalized_segment s) = some d → normalize_value s = fmt1 d := by
    intro s d hs hparse
    simp [normalize_value, hs, hparse]
  refine ⟨hfloat, ?_, ?_, by decide, ?_⟩
  · intro s1 s2 d1 d2 hs1 hs2 hp1 hp2 hround
    rw [hfloat s1 d1 hs1 hp1, hfloat s2 d2 hs2 hp2]
    simp [fmt1, hround]
  · intro s hs hparse
    simp [normalize_value, hs, hparse]
  · intro lt dt t r st1 h
    have hnorm1 : normalize_value "21.04" = "21.0" := by decide
    have hnorm2 : normalize_value "21.0" = "21.0" := by decide
    cases hc : dictGet dt 1 with
    | none =>
        by_cases ht : t - (dictGet lt 1).getD 0 ≥ 300
        · simp [needs_update, needs_update_try, check_device_type,
            hc, dictGet, dictSet, type_mapping, debugDeviceEnabled,
            DEBUG_DEVICE, tempDevice, candidateVals, hnorm1, hnorm2,
            graph_update_interval, ht] at h
          rw [← h.1]
          decide
        · simp [needs_update, needs_update_try, check_device_type,
            hc, dictGet, dictSet, type_mapping, debugDeviceEnabled,
            DEBUG_DEVICE, tempDevice, candidateVals, hnorm1, hnorm2,
            graph_update_interval, ht] at h
          rw [← h.1]
          exact no_changes_message_ne _
    | some b =>
        cases b with
        | true =>
            by_cases ht : t - (dictGet lt 1).getD 0 ≥ 300
            · simp [needs_update, needs_update_try, check_device_type,
                hc, dictGet, dictSet, type_mapping, debugDeviceEnabled,
                DEBUG_DEVICE, tempDevice, candidateVals, hnorm1, hnorm2,
                graph_update_interval, ht] at h
              rw [← h.1]
              decide
            · simp [needs_update, needs_update_try, check_device_type,
                hc, dictGet, dictSet, type_mapping, debugDeviceEnabled,
                DEBUG_DEVICE, tempDevice, candidateVals, hnorm1, hnorm2,
                graph_update_interval, ht] at h
              rw [← h.1]
              exact no_changes_message_ne _
        | false =>
            simp [needs_update, needs_update_try, check_device_type,
              hc, dictGet, dictSet, type_mapping, debugDeviceEnabled,
              DEBUG_DEVICE, tempDevice, candidateVals, hnorm1, hnorm2] at h
            rw [← h.1]
            decide

/-- Witness for C6 at `"21.04"`. -/
theorem C6_normalize_compare_witness :
    ("21.04" : String) ≠ ""
    ∧ pyFloat? (normalized_segment "21.04") = some ⟨2104, 2⟩
    ∧ normalize_value "21.04" = fmt1 ⟨2104, 2⟩ :=
  ⟨by decide, by decide,
   C6_normalize_compare.1 "21.04" ⟨2104, 2⟩ (by decide) (by decide)⟩

/-- C7 counterexample: with the last publish recorded at time 0 and an
unchanged value, the call at time exactly 300 already returns an interval
update although the elapsed time does not strictly exceed the 300-second
interval (the code tests with greater-or-equal). -/
theorem C7_counterexample :
    (needs_update 0 ⟨[(1, 0)], []⟩ tempDevice candidateVals 300).1
      = .ok (true, "Interval update", "")
    ∧ ¬ ((300 : Int) - 0 > 300) := by
  decide

/-- C7 as amended: for a graphing device with an unchanged value, an
interval update is returned exactly when the elapsed time since the last
recorded publish is **at least** 300 s (greater-or-equal, not strictly
greater); the stored timestamp is refreshed on that update, and for the
following window — any second call less than 300 s after the refresh —
only a refusal is returned, so at most one forced update occurs per
300-second window. -/
theorem C7_amended :
    (∀ last t : Int,
        ((needs_update 0 ⟨[(1, last)], []⟩ tempDevice candidateVals t).1
            = .ok (true, "Interval update", "") ↔ t - last ≥ 300))
    ∧ (∀ last t : Int, t - last ≥ 300 →
        (needs_update 0 ⟨[(1, last)], []⟩ tempDevice candidateVals t).2
          = ⟨[(1, t)], [(1, true)]⟩)
    ∧ (∀ t u : Int, u - t < 300 →
        (needs_update 0 ⟨[(1, t)], [(1, true)]⟩ tempDevice candidateVals u).1
          = .ok (false,
              "No changes, next update in " ++ toString (300 - (u - t)) ++ "s",
              "")) := by
  have hnorm1 : normalize_value "21.04" = "21.0" := by decide
  have hnorm2 : normalize_value "21.0" = "21.0" := by decide
  refine ⟨?_, ?_, ?_⟩
  · intro last t
    by_cases ht : t - last ≥ 300
    · simp [needs_update, needs_update_try, check_device_type,
        dictGet, dictSet, type_mapping, debugDeviceEnabled,
        DEBUG_DEVICE, tempDevice, candidateVals, hnorm1, hnorm2, dictGet,
        graph_update_interval, ht]
    · simp [needs_update, needs_update_try, check_device_type,
        dictGet, dictSet, type_mapping, debugDeviceEnabled,
        DEBUG_DEVICE, tempDevice, candidateVals, hnorm1, hnorm2, dictGet,
        graph_update_interval, ht]
  · intro last t ht
    simp [needs_update, needs_update_try, check_device_type,
      dictGet, dictSet, type_mapping, debugDeviceEnabled,
      DEBUG_DEVICE, tempDevice, candidateVals, hnorm1, hnorm2, dictGet, dictSet,
      graph_update_interval, ht]
  · intro t u hu
    have ht : ¬ (u - t ≥ 300) := by omega
    simp [needs_update, needs_update_try, check_device_type,
      dictGet, dictSet, type_mapping, debugDeviceEnabled,
      DEBUG_DEVICE, tempDevice, candidateVals, hnorm1, hnorm2, dictGet,
      graph_update_interval, ht]

/-- Witness for C7 as amended: last publish at 0, call at 400 gives an
interval update; the refreshed state refuses at 500. -/
theorem C7_amended_witness :
    ((400 : Int) - 0 ≥ 300)
    ∧ (needs_update 0 ⟨[(1, 0)], []⟩ tempDevice candidateVals 400).1
        = .ok (true, "Interval update", "")
    ∧ ((500 : Int) - 400 < 300)
    ∧ (needs_update 0 ⟨[(1, 400)], [(1, true)]⟩ tempDevice candidateVals 500).1
        = .ok (false, "No changes, next update in "
            ++ toString ((300 : Int) - (500 - 400)) ++ "s", "") :=
  ⟨by decide, (C7_amended.1 0 400).mpr (by decide), by decide,
   C7_amended.2.2 400 500 (by decide)⟩

/-- A device whose `ID` and `Name` attribute accesses both raise. -/
def badDevice : Device :=
  ⟨.error "no ID", .error "no Name", .ok 80, true, .ok 0, .ok 0, .ok ""⟩

/-- C10 counterexample: when `device.ID` raises, the `except` handler of
`needs_update` formats a log line that itself reads `device.Name`; if that
access raises too, the exception propagates to the caller instead of
failing closed. -/
theorem C10_counterexample :
    (needs_update 0 ⟨[], []⟩ badDevice ⟨some 0, some "21.0"⟩ 0).1
      = .error "no Name" := by
  decide

/-- The `try` block of `needs_update` leaves `last_update_times` untouched
whenever it raises: every timestamp write is immediately followed by a
normal return. -/
theorem needs_update_try_error_state (debug_level : Int) (st : TrackerState)
    (d : Device) (nv : NewValues) (t : Int) (e : String) (st1 : TrackerState)
    (h : needs_update_try debug_level st d nv t = (.error e, st1)) :
    st1.last_update_times = st.last_update_times := by
  unfold needs_update_try at h
  repeat' first
    | split at h
    | dsimp only [] at h
  all_goals injection h with h1 h2
  all_goals first
    | exact Except.noConfusion h1
    | (rw [← h2])

/-- C10 as amended: provided reading `device.Name` succeeds,
`needs_update` never propagates an exception; when its `try` block raises
internally it fails closed, returning `(False, "Error: " + message, "")`
with no publish and with the stored per-device timestamp map unchanged. -/
theorem C10_amended :
    ∀ (debug_level : Int) (st : TrackerState) (d : Device) (nv : NewValues)
      (t : Int) (nm : String), d.Name = .ok nm →
      (∃ r st1, needs_update debug_level st d nv t = (.ok r, st1))
      ∧ (∀ (e : String) (st1 : TrackerState),
          needs_update_try debug_level st d nv t = (.error e, st1) →
          needs_update debug_level st d nv t
              = (.ok (false, "Error: " ++ e, ""), st1)
          ∧ st1.last_update_times = st.last_update_times) := by
  intro debug_level st d nv t nm hName
  constructor
  · rcases hb : needs_update_try debug_level st d nv t with ⟨res, st1⟩
    cases res with
    | ok r => exact ⟨r, st1, by simp [needs_update, hb]⟩
    | error e =>
        exact ⟨(false, "Error: " ++ e, ""), st1, by simp [needs_update, hb, hName]⟩
  · intro e st1 htry
    exact ⟨by simp [needs_update, htry, hName],
      needs_update_try_error_state debug_level st d nv t e st1 htry⟩

/-- A device whose `Name` reads fine but whose `nValue` access raises. -/
def errDevice : Device :=
  ⟨.ok 1, .ok "Flow", .ok 80, true, .ok 0, .error "boom", .ok "21.0"⟩

/-- Witness for C10 as amended: with `Name` readable, the call with a
raising `nValue` still returns normally (and indeed fails closed). -/
theorem C10_amended_witness :
    errDevice.Name = .ok "Flow"
    ∧ (∃ r st1, needs_update 0 ⟨[], []⟩ errDevice ⟨some 0, some "21.0"⟩ 0
        = (.ok r, st1)) :=
  ⟨rfl, (C10_amended 0 ⟨[], []⟩ errDevice ⟨some 0, some "21.0"⟩ 0 "Flow" rfl).1⟩

end Plugin
